import Mathlib

/-!
Verification of the loanvision document-ingestion pipeline
(`textract_processor.py` and `src/backend/ocr_repair_helper.py`).

The Python code is shallowly embedded: external effects (pdf2image
rasterization, PIL saves, img2pdf reassembly, S3 upload, Textract
submission/polling, json dumps) are modelled as oracle values of type
`Except String _` supplied through environment structures, and the
observable calls the orchestrator makes are recorded as an explicit
`Effect` trace.  Control flow (the try/except/finally structure of
`main`, the `while True` poll loop, the continuation-token loop of
`get_job_results`) is translated branch by branch from the source.  The
binary64 floating-point height computation of the memory-conscious resize
step is modelled exactly over ℕ/ℤ as significand/shift pairs with
round-to-nearest-even.
-/

/-- Status field of a per-document `file_record` in `textract_processor.main`
(`pending`, `success`, `repair_failed`, `textract_failed`, `unexpected_error`). -/
inductive RecStatus where
  | pending
  | success
  | repair_failed
  | textract_failed
  | unexpected_error
deriving DecidableEq, Repr

/-- The per-document record dict built in `textract_processor.main`
(lines 165-172): filename, status, error, optimized_path, output_path,
processing_time. -/
structure FileRecord where
  filename : String
  status : RecStatus
  error : Option String
  optimized_path : Option String
  output_path : Option String
  processing_time : Option Nat
deriving DecidableEq, Repr

/-- Textract `JobStatus` values consulted by the poll loop in `main`
(lines 204-213). -/
inductive JobStatus where
  | IN_PROGRESS
  | SUCCEEDED
  | FAILED
deriving DecidableEq, Repr

/-- One response of `textract.get_document_text_detection`: a payload of
result blocks plus an optional `NextToken` continuation token. -/
structure TextractResponse where
  blocks : String
  nextToken : Option String
deriving DecidableEq, Repr

/-- Observable external calls made by the pipeline, recorded as a trace:
`upload_to_s3`, `start_textract_job`, each `get_document_text_detection`
status poll, the per-document output write, and the final log write. -/
inductive Effect where
  | upload (key : String)
  | submitJob (key : String)
  | poll (jobId : String)
  | writeOutput (path : String)
  | writeLog
deriving DecidableEq, Repr

/-- `get_job_results` (textract_processor.py lines 118-133), generalized over
the starting token.  `fetch` models `textract.get_document_text_detection`
for the fixed job id: the loop issues `fetch tok`, appends the response,
reads `NextToken`, and stops when no token is returned.  `fuel` bounds the
length of the continuation chain (the Python `while True` loop relies on the
chain being finite); `none` means the chain outlived the fuel. -/
def getJobResultsFrom (fetch : Option String → TextractResponse) :
    Nat → Option String → Option (List TextractResponse)
  | 0, _ => none
  | fuel + 1, tok =>
    let response := fetch tok
    match response.nextToken with
    | none => some [response]
    | some t =>
      match getJobResultsFrom fetch fuel (some t) with
      | none => none
      | some rest => some (response :: rest)

/-- `get_job_results` proper: the first request carries no token
(`next_token = None` on entry to the loop). -/
def get_job_results (fetch : Option String → TextractResponse) (fuel : Nat) :
    Option (List TextractResponse) :=
  getJobResultsFrom fetch fuel none

/-- `rs` is the finite continuation-token chain the service `fetch` serves
starting from token `tok`: the response to `tok` is the head, each response's
`NextToken` addresses the next element, and the last response carries no
token. -/
def isChainFrom (fetch : Option String → TextractResponse) :
    Option String → List TextractResponse → Bool
  | _, [] => false
  | tok, [r] => fetch tok == r && r.nextToken == none
  | tok, r :: r2 :: rest =>
    fetch tok == r &&
      match r.nextToken with
      | none => false
      | some t => isChainFrom fetch (some t) (r2 :: rest)

/-- The `while True` poll loop of `main` (lines 204-213), driven by the
successive `JobStatus` values `is_job_complete` would return.  `some true`
means the loop broke on `SUCCEEDED`; `some false` means it raised
`Exception("Textract job failed")` on `FAILED`; the `Nat` counts the polls
made; `none` means the supplied statuses never reach a terminal state (the
Python loop would poll forever). -/
def pollLoop : List JobStatus → Option (Bool × Nat)
  | [] => none
  | s :: rest =>
    match s with
    | JobStatus.SUCCEEDED => some (true, 1)
    | JobStatus.FAILED => some (false, 1)
    | JobStatus.IN_PROGRESS =>
      match pollLoop rest with
      | none => none
      | some p => some (p.1, p.2 + 1)

/-- Environment for processing one document: the outcomes the external world
would hand each stage.  `optimizeResult` is the outcome of
`repair_and_optimize_pdf` (the error string is the raised message),
`uploadResult` of `upload_to_s3`, `submitResult` of `start_textract_job`
(job id on success), `polls` the successive job statuses, `fetch`/`fetchFuel`
the paginated result responses for `get_job_results`, `saveResult` the
outcome of dumping the result json, and `elapsed` the measured
`time.time() - start_time`. -/
structure DocEnv where
  optimizeResult : Except String Unit
  uploadResult : Except String Unit
  submitResult : Except String String
  polls : List JobStatus
  fetch : Option String → TextractResponse
  fetchFuel : Nat
  saveResult : Except String Unit
  elapsed : Nat

/-- The body of the `for pdf in pdf_files` loop of `main` (lines 164-243) for
one document with stem `stem` (so `pdf.name = stem ++ ".pdf"`).  Returns the
records appended to `processing_summary["files"]` for this document, the
increments to the `successful` / `repair_failures` / `textract_failures`
counters, and the trace of external calls; `none` when the document's remote
job never reaches a terminal status (or its token chain outlives the fuel),
in which case the Python process never gets past this document.

Two source details are reproduced exactly:
the `repair_failed` handler appends `file_record` and then `continue`s
(lines 190-191), and Python runs the `finally` block (lines 240-243) on
`continue`, which sets `processing_time` on the same dict object and appends
it a second time — so that path contributes two aliases of one record; and
`output_path` is only assigned after `json.dump` succeeds (line 223), so a
failed dump leaves it `None`.  The outer `except` (`unexpected_error`,
lines 234-238) only catches exceptions raised outside the two inner `try`
blocks — in the source those are console prints, which this embedding does
not model, so that branch is unreachable here. -/
def processDoc (env : DocEnv) (stem : String) :
    Option (List FileRecord × Nat × Nat × Nat × List Effect) :=
  let fname := stem ++ ".pdf"
  let t := env.elapsed
  match env.optimizeResult with
  | Except.error e =>
    let rec1 : FileRecord :=
      ⟨fname, RecStatus.repair_failed, some e, none, none, some t⟩
    some ([rec1, rec1], 0, 1, 0, [])
  | Except.ok _ =>
    let optPath := "ocr_optimized_pdfs/" ++ stem ++ "_ocr_fixed.pdf"
    let key := "uploads/" ++ stem ++ "_ocr_fixed.pdf"
    match env.uploadResult with
    | Except.error e =>
      some ([⟨fname, RecStatus.textract_failed, some e, some optPath, none, some t⟩],
        0, 0, 1, [Effect.upload key])
    | Except.ok _ =>
      match env.submitResult with
      | Except.error e =>
        some ([⟨fname, RecStatus.textract_failed, some e, some optPath, none, some t⟩],
          0, 0, 1, [Effect.upload key, Effect.submitJob key])
      | Except.ok jobId =>
        match pollLoop env.polls with
        | none => none
        | some (false, n) =>
          some ([⟨fname, RecStatus.textract_failed, some "Textract job failed",
                  some optPath, none, some t⟩],
            0, 0, 1,
            [Effect.upload key, Effect.submitJob key] ++
              List.replicate n (Effect.poll jobId))
        | some (true, n) =>
          match get_job_results env.fetch env.fetchFuel with
          | none => none
          | some _pages =>
            let outPath := "ocr_results/" ++ stem ++ ".json"
            match env.saveResult with
            | Except.error e =>
              some ([⟨fname, RecStatus.textract_failed, some e, some optPath, none, some t⟩],
                0, 0, 1,
                [Effect.upload key, Effect.submitJob key] ++
                  List.replicate n (Effect.poll jobId))
            | Except.ok _ =>
              some ([⟨fname, RecStatus.success, none, some optPath, some outPath, some t⟩],
                1, 0, 0,
                [Effect.upload key, Effect.submitJob key] ++
                  List.replicate n (Effect.poll jobId) ++
                  [Effect.writeOutput outPath])

/-- The `processing_summary` dict of `main` (lines 145-152 and 246-249). -/
structure BatchSummary where
  pipeline_start : Nat
  total_files : Nat
  successful : Nat
  repair_failures : Nat
  textract_failures : Nat
  files : List FileRecord
  pipeline_end : Option Nat
  total_processing_time : Option Nat
deriving DecidableEq, Repr

/-- The `for pdf in pdf_files` loop over all documents, accumulating
records, counter increments and effect traces in order. -/
def runDocs (envs : String → DocEnv) :
    List String → Option (List FileRecord × Nat × Nat × Nat × List Effect)
  | [] => some ([], 0, 0, 0, [])
  | stem :: rest =>
    match processDoc (envs stem) stem with
    | none => none
    | some (recs, s, r, t, effs) =>
      match runDocs envs rest with
      | none => none
      | some (recs2, s2, r2, t2, effs2) =>
        some (recs ++ recs2, s + s2, r + r2, t + t2, effs ++ effs2)

/-- `main` of textract_processor.py (named `pipelineMain` here since Lean reserves `main`) (lines 136-265): builds the summary,
returns early — without writing the log — when no PDF files are found
(lines 158-160), otherwise processes every document, stamps `pipeline_end`
and `total_processing_time`, and writes the log file (lines 246-253,
recorded as the `Effect.writeLog` trace entry).  `startTs`/`endTs` model the
two `datetime.now()` readings; `none` means some document never finished. -/
def pipelineMain (envs : String → DocEnv) (stems : List String) (startTs endTs : Nat) :
    Option (BatchSummary × List Effect) :=
  let base : BatchSummary :=
    ⟨startTs, stems.length, 0, 0, 0, [], none, none⟩
  if stems.isEmpty then
    some (base, [])
  else
    match runDocs envs stems with
    | none => none
    | some (recs, s, r, t, effs) =>
      some (⟨startTs, stems.length, s, r, t, recs, some endTs, some (endTs - startTs)⟩,
        effs ++ [Effect.writeLog])

/-- Contents of a per-document scratch area of temporary page images:
the files currently in it and whether the directory itself exists. -/
structure Scratch where
  files : List String
  dirExists : Bool
deriving DecidableEq, Repr

/-- File name of the temporary image for page number `k`
(`f"page_{idx + 1}.png"` with `k = idx + 1`). -/
def pageFileName (k : Nat) : String :=
  "page_" ++ toString k ++ ".png"

/-- Environment for `repair_and_optimize_pdf`: `convertResult` is the
outcome of `convert_from_path` (the number of rasterized pages),
`saveResult idx` the outcome of saving page `idx`'s grayscale image, and
`reassembleResult` the outcome of `img2pdf.convert` plus the output write. -/
structure OptEnv where
  convertResult : Except String Nat
  saveResult : Nat → Except String Unit
  reassembleResult : Except String Unit

/-- The per-page loop of `repair_and_optimize_pdf` (lines 75-82): for each
of `remaining` pages starting at index `idx`, convert to grayscale and save
the temporary image, appending its path to the scratch contents; an
exception while saving aborts the loop. -/
def saveImages (env : OptEnv) : Nat → Nat → Scratch → Except String Scratch
  | _idx, 0, sc => Except.ok sc
  | idx, remaining + 1, sc =>
    match env.saveResult idx with
    | Except.error e => Except.error e
    | Except.ok _ =>
      saveImages env (idx + 1) remaining
        ⟨sc.files ++ [pageFileName (idx + 1)], sc.dirExists⟩

/-- `path.unlink()` for each path in `image_paths` (lines 92-93): removes
each of the given paths from the scratch contents. -/
def unlinkEach (paths : List String) (sc : Scratch) : Scratch :=
  ⟨sc.files.filter (fun f => !(paths.contains f)), sc.dirExists⟩

/-- `pdf_temp_dir.rmdir()` (line 94): removes the scratch directory, which
fails when files remain in it. -/
def rmdirStep (sc : Scratch) : Except String Scratch :=
  if sc.files.isEmpty then Except.ok ⟨[], false⟩
  else Except.error "Directory not empty"

/-- `repair_and_optimize_pdf` (textract_processor.py lines 52-102) for the
document with stem `stem`, returning the function's result (the optimized
pdf path, or the re-raised wrapped error) together with the final state of
the document's scratch subdirectory.  The `except` handler (lines 98-102)
runs `shutil.rmtree` on the subdirectory before raising
`Exception("Failed to optimize PDF: " + str(e))`; the success path unlinks
every temporary image and removes the then-empty subdirectory
(lines 91-94). -/
def repair_and_optimize_pdf (env : OptEnv) (stem : String) :
    Except String String × Scratch :=
  let sc0 : Scratch := ⟨[], true⟩
  let cleaned : Scratch := ⟨[], false⟩
  match env.convertResult with
  | Except.error e => (Except.error ("Failed to optimize PDF: " ++ e), cleaned)
  | Except.ok n =>
    match saveImages env 0 n sc0 with
    | Except.error e => (Except.error ("Failed to optimize PDF: " ++ e), cleaned)
    | Except.ok sc =>
      match env.reassembleResult with
      | Except.error e => (Except.error ("Failed to optimize PDF: " ++ e), cleaned)
      | Except.ok _ =>
        match rmdirStep (unlinkEach sc.files sc) with
        | Except.error e => (Except.error ("Failed to optimize PDF: " ++ e), cleaned)
        | Except.ok sc2 =>
          (Except.ok ("ocr_optimized_pdfs/" ++ stem ++ "_ocr_fixed.pdf"), sc2)

/-- A page image with its pixel dimensions. -/
structure PageImg where
  width : Nat
  height : Nat
deriving DecidableEq, Repr

/-- Round `num / den` (with `den > 0`) to the nearest integer, ties to the
even candidate — the significand rounding of IEEE-754
round-to-nearest-even. -/
def roundNearestEven (num den : ℕ) : ℕ :=
  let q := num / den
  let r := num % den
  if 2 * r < den then q
  else if den < 2 * r then q + 1
  else if q % 2 = 0 then q else q + 1

/-- Rescale the positive fraction `a / b` by powers of two until it lies in
the binade `[2^52, 2^53)`: the result `(a2, b2, s)` satisfies
`a / b = (a2 / b2) / 2^s` with `b2 * 2^52 ≤ a2 < b2 * 2^53`.  The first
argument is fuel: `a + b + 120` steps always suffice (at most 52 plus the
bit length of `b` doublings up, at most the bit length of `a` halvings
down), and the recursion stops as soon as the binade is reached. -/
def scaleInto : ℕ → ℕ → ℕ → ℤ → ℕ × ℕ × ℤ
  | 0, a, b, s => (a, b, s)
  | fuel + 1, a, b, s =>
    if a < b * 2 ^ 52 then scaleInto fuel (2 * a) b (s + 1)
    else if b * 2 ^ 53 ≤ a then scaleInto fuel a (2 * b) (s - 1)
    else (a, b, s)

/-- A nonnegative IEEE-754 binary64 value in its exact rational form
`m / 2^s`: integer significand `m` and base-two shift `s`. -/
structure F64 where
  m : ℕ
  s : ℤ
deriving DecidableEq, Repr

/-- Round the exact nonnegative fraction `a / b` (with `den > 0`) to the
nearest binary64 value: round-to-nearest, ties-to-even, 53-bit significand.
The exponent is unbounded — subnormal underflow and overflow, which for the
resize computation would require page dimensions beyond `2^1022`, are not
modelled. -/
def rnF (a b : ℕ) : F64 :=
  if a = 0 then ⟨0, 0⟩
  else
    let t := scaleInto (a + b + 120) a b 0
    ⟨roundNearestEven t.1 t.2.1, t.2.2⟩

/-- CPython's int-to-float conversion, correctly rounded (exact below
`2^53`). -/
def floatOfNat (h : ℕ) : F64 := rnF h 1

/-- Binary64 multiplication: the exact product of the two values, rounded
back to binary64. -/
def floatMul (x y : F64) : F64 :=
  if 0 ≤ x.s + y.s then rnF (x.m * y.m) (2 ^ (x.s + y.s).toNat)
  else rnF (x.m * y.m * 2 ^ (-(x.s + y.s)).toNat) 1

/-- Python's `int(...)` on a nonnegative float: truncation toward zero. -/
def floatTruncToNat (x : F64) : ℕ :=
  if 0 ≤ x.s then x.m / 2 ^ x.s.toNat
  else x.m * 2 ^ (-x.s).toNat

/-- The memory-conscious resize step of `enhance_pdf`
(ocr_repair_helper.py lines 41-45): a page wider than 1500 pixels is
resized to width 1500 and height `int(grayscale.height * ratio)` with
`ratio = 1500 / grayscale.width` — computed, as in Python, in IEEE-754
binary64 arithmetic: the division `1500 / width` rounds to the nearest
double, the int-to-float conversion of the height and the multiplication
round again, and `int` truncates.  Modelled exactly over ℕ/ℤ via
`rnF`, `floatOfNat`, `floatMul` and `floatTruncToNat`. -/
def resizePage (p : PageImg) : PageImg :=
  if 1500 < p.width then
    ⟨1500, floatTruncToNat (floatMul (floatOfNat p.height) (rnF 1500 p.width))⟩
  else p

/-- Environment for `enhance_pdf`: `convertResult` is the outcome of
`convert_from_path` at 150 DPI (the page images), `saveResult idx` the
outcome of saving page `idx`'s processed image, and `writeResult` the
outcome of `img2pdf.convert` plus writing the output file. -/
structure EnhanceEnv where
  convertResult : Except String (List PageImg)
  saveResult : Nat → Except String Unit
  writeResult : Except String Unit

/-- The per-page loop of `enhance_pdf` (lines 37-54): each page is
converted to grayscale, conditionally resized (`resizePage`), and saved
into the temporary directory. -/
def enhanceSaveAll (env : EnhanceEnv) :
    List PageImg → Nat → Scratch → Except String Scratch
  | [], _idx, sc => Except.ok sc
  | p :: rest, idx, sc =>
    let _gray := resizePage p
    match env.saveResult idx with
    | Except.error e => Except.error e
    | Except.ok _ =>
      enhanceSaveAll env rest (idx + 1)
        ⟨sc.files ++ [pageFileName (idx + 1)], sc.dirExists⟩

/-- `enhance_pdf` (ocr_repair_helper.py lines 17-68).  Returns the boolean
result, whether the optimized output file was written, and the final state
of the temporary directory.  The whole body sits in one `try` whose handler
returns `False` (lines 66-68), and the scratch area is a
`tempfile.TemporaryDirectory` context manager, removed on normal exit and
on exception alike. -/
def enhance_pdf (env : EnhanceEnv) : Bool × Bool × Scratch :=
  let sc0 : Scratch := ⟨[], true⟩
  let cleaned : Scratch := ⟨[], false⟩
  match env.convertResult with
  | Except.error _ => (false, false, cleaned)
  | Except.ok pages =>
    match enhanceSaveAll env pages 0 sc0 with
    | Except.error _ => (false, false, cleaned)
    | Except.ok _ =>
      match env.writeResult with
      | Except.error _ => (false, false, cleaned)
      | Except.ok _ => (true, true, cleaned)

/-- Concrete environment of a document whose optimization raises: the
orchestrator sees `repair_and_optimize_pdf` fail and the remote stages
would all succeed if reached. -/
def repairFailEnv : DocEnv :=
  ⟨Except.error "Failed to optimize PDF: corrupt page", Except.ok (),
    Except.ok "job-1", [JobStatus.SUCCEEDED], fun _ => ⟨"", none⟩, 1,
    Except.ok (), 2⟩

/-- Concrete environment of a document whose optimization succeeds but
whose S3 upload fails. -/
def uploadFailEnv : DocEnv :=
  ⟨Except.ok (), Except.error "S3 access denied", Except.ok "job-9",
    [JobStatus.SUCCEEDED], fun _ => ⟨"", none⟩, 1, Except.ok (), 3⟩

/-- A recognition service serving a two-page continuation-linked result:
the tokenless first request yields page one with token `tok-1`, the
follow-up request yields page two with no further token. -/
def twoPageFetch : Option String → TextractResponse :=
  fun tok =>
    match tok with
    | none => ⟨"page one text", some "tok-1"⟩
    | some _ => ⟨"page two text", none⟩

/-- The continuation-token chain `twoPageFetch` serves from the tokenless
first request. -/
def twoPageChain : List TextractResponse :=
  [⟨"page one text", some "tok-1"⟩, ⟨"page two text", none⟩]

/-- Filtering a list down to the elements it does not contain leaves
nothing: unlinking every path in `image_paths` empties the scratch
directory that holds exactly those paths. -/
theorem filter_not_self_contains (l : List String) :
    l.filter (fun f => !(l.contains f)) = [] := by
  apply List.filter_eq_nil_iff.mpr
  intro a ha
  simp [List.elem_iff, ha]

/-- One unfolding step of `getJobResultsFrom` at positive fuel. -/
theorem getJobResultsFrom_step (fetch : Option String → TextractResponse)
    (fuel : Nat) (tok : Option String) :
    getJobResultsFrom fetch (fuel + 1) tok =
      match (fetch tok).nextToken with
      | none => some [fetch tok]
      | some t =>
        match getJobResultsFrom fetch fuel (some t) with
        | none => none
        | some rest => some (fetch tok :: rest) := rfl

/-- Following a finite continuation-token chain from any starting token
returns exactly the chain, given fuel equal to its length. -/
theorem getJobResultsFrom_chain (fetch : Option String → TextractResponse) :
    ∀ (rs : List TextractResponse) (tok : Option String),
      isChainFrom fetch tok rs = true →
      getJobResultsFrom fetch rs.length tok = some rs := by
  intro rs
  induction rs with
  | nil => intro tok h; simp [isChainFrom] at h
  | cons r rest ih =>
    intro tok h
    cases rest with
    | nil =>
      rw [isChainFrom, Bool.and_eq_true, beq_iff_eq, beq_iff_eq] at h
      obtain ⟨h1, h2⟩ := h
      simp [getJobResultsFrom, h1, h2]
    | cons r2 rest2 =>
      rw [isChainFrom, Bool.and_eq_true, beq_iff_eq] at h
      obtain ⟨h1, h2⟩ := h
      cases hnt : r.nextToken with
      | none => rw [hnt] at h2; exact absurd h2 (by simp)
      | some t =>
        rw [hnt] at h2
        have hrec := ih (some t) h2
        rw [show (r :: r2 :: rest2).length = (r2 :: rest2).length + 1 from rfl,
          getJobResultsFrom_step, h1, hnt]
        simp only [List.length_cons] at hrec
        simp [hrec]

/-- C3: for every job whose poll responses form a finite continuation-token
chain, `get_job_results` issues the first request without a token, follows
each returned token to the next page, stops exactly at the tokenless
response, and returns all result pages concatenated in chain order — the
output is the chain itself, so reordering the chain reorders the output. -/
theorem get_job_results_follows_token_chain
    (fetch : Option String → TextractResponse) (rs : List TextractResponse)
    (h : isChainFrom fetch none rs = true) :
    get_job_results fetch rs.length = some rs :=
  getJobResultsFrom_chain fetch rs none h

/-- Witness for C3: the two-page continuation-linked stub is retrieved as
both pages in token-chain order. -/
theorem get_job_results_follows_token_chain_witness :
    isChainFrom twoPageFetch none twoPageChain = true ∧
    get_job_results twoPageFetch twoPageChain.length = some twoPageChain :=
  ⟨by decide,
    get_job_results_follows_token_chain twoPageFetch twoPageChain (by decide)⟩

/-- C8: the per-document scratch directory of temporary page images is
empty and removed after `repair_and_optimize_pdf` returns or fails —
whatever the rasterization, per-page save, and reassembly outcomes — and
likewise after `enhance_pdf` (whose scratch area is a
`tempfile.TemporaryDirectory`): no partial temporary state remains. -/
theorem scratch_area_always_cleaned (envR : OptEnv) (envE : EnhanceEnv)
    (stem : String) :
    (repair_and_optimize_pdf envR stem).2 = ⟨[], false⟩ ∧
    (enhance_pdf envE).2.2 = ⟨[], false⟩ := by
  constructor
  · unfold repair_and_optimize_pdf
    cases envR.convertResult with
    | error e => rfl
    | ok n =>
      cases hsv : saveImages envR 0 n ⟨[], true⟩ with
      | error e => simp [hsv]
      | ok sc =>
        cases envR.reassembleResult with
        | error e => simp [hsv]
        | ok u =>
          simp [hsv, rmdirStep, unlinkEach, filter_not_self_contains]
  · unfold enhance_pdf
    cases envE.convertResult with
    | error e => rfl
    | ok pages =>
      cases hsv : enhanceSaveAll envE pages 0 ⟨[], true⟩ with
      | error e => simp [hsv]
      | ok sc =>
        cases envE.writeResult with
        | error e => simp [hsv]
        | ok u => simp [hsv]

/-- C9 is violated by the source: the height is computed by
`int(grayscale.height * (1500 / grayscale.width))` in binary64 floating
point (ocr_repair_helper.py lines 43-44), not by the claim's exact integer
formula.  At width 1593, height 531 the float ratio `1500 / 1593` rounds
just below the exact `500 / 531`, the product `531 * ratio` rounds to just
below 500, and `int` truncates it to 499, while the claim's formula gives
exactly 500 (since `531 * 1500 = 796500 = 1593 * 500`). -/
theorem float_resize_height_deviates_from_exact :
    (resizePage ⟨1593, 531⟩).height = 499 ∧ (531 * 1500 / 1593 : ℕ) = 500 ∧
    (resizePage ⟨1593, 531⟩).height ≠ 531 * 1500 / 1593 := by
  decide

/-- C9 amended: with the memory-conscious downscale threshold of 1500,
every page wider than 1500 pixels is resized so its output width is at most
1500 (it is exactly 1500) and a page of width at most 1500 is left
unchanged; the output height is the binary64 evaluation of
`int(height * (1500 / width))`, which preserves the aspect ratio only
within float rounding and can land one below the exact
`height * 1500 / width` (499 instead of 500 at 1593 x 531). -/
theorem memory_conscious_resize_amended (p : PageImg) :
    (1500 < p.width →
      (resizePage p).width ≤ 1500 ∧
      (resizePage p).height =
        floatTruncToNat (floatMul (floatOfNat p.height) (rnF 1500 p.width))) ∧
    (p.width ≤ 1500 → resizePage p = p) := by
  constructor
  · intro h
    rw [resizePage, if_pos h]
    exact ⟨le_refl 1500, rfl⟩
  · intro h
    rw [resizePage, if_neg (by omega)]

/-- Witness for the amended C9: a 3000x2000 page is resized to width 1500
(its float-computed height evaluates to the exact 1000 here) and a 1500x800
page is untouched. -/
theorem memory_conscious_resize_amended_witness :
    ((resizePage ⟨3000, 2000⟩).width ≤ 1500 ∧
      (resizePage ⟨3000, 2000⟩).height =
        floatTruncToNat (floatMul (floatOfNat 2000) (rnF 1500 3000))) ∧
    resizePage ⟨1500, 800⟩ = ⟨1500, 800⟩ :=
  ⟨(memory_conscious_resize_amended ⟨3000, 2000⟩).1 (by decide),
    (memory_conscious_resize_amended ⟨1500, 800⟩).2 (by decide)⟩

/-- Concrete `enhance_pdf` environment whose rasterization fails. -/
def badEnhanceEnv : EnhanceEnv :=
  ⟨Except.error "bad pdf", fun _ => Except.ok (), Except.ok ()⟩

/-- Concrete `enhance_pdf` environment whose output write fails. -/
def writeFailEnhanceEnv : EnhanceEnv :=
  ⟨Except.ok [⟨3000, 2000⟩], fun _ => Except.ok (), Except.error "disk full"⟩

/-- C10: `enhance_pdf` never raises — its result is a plain boolean and the
result equals whether the optimized output file was written (so `True` only
when the output exists), and an error in conversion, in any per-page save,
or in reassembly/write makes it return `False` instead of propagating. -/
theorem enhance_pdf_traps_errors (env : EnhanceEnv) :
    ((enhance_pdf env).1 = (enhance_pdf env).2.1) ∧
    (∀ e, env.convertResult = Except.error e → (enhance_pdf env).1 = false) ∧
    (∀ pages e, env.convertResult = Except.ok pages →
      enhanceSaveAll env pages 0 ⟨[], true⟩ = Except.error e →
      (enhance_pdf env).1 = false) ∧
    (∀ e, env.writeResult = Except.error e → (enhance_pdf env).1 = false) := by
  refine ⟨?_, ?_, ?_, ?_⟩
  · unfold enhance_pdf
    cases envc : env.convertResult with
    | error e => rfl
    | ok pages =>
      cases hsv : enhanceSaveAll env pages 0 ⟨[], true⟩ with
      | error e => simp [hsv]
      | ok sc =>
        cases env.writeResult with
        | error e => simp [hsv]
        | ok u => simp [hsv]
  · intro e he
    unfold enhance_pdf
    simp [he]
  · intro pages e hp hsv
    unfold enhance_pdf
    simp [hp, hsv]
  · intro e he
    unfold enhance_pdf
    cases envc : env.convertResult with
    | error e2 => rfl
    | ok pages =>
      cases hsv : enhanceSaveAll env pages 0 ⟨[], true⟩ with
      | error e2 => simp [hsv]
      | ok sc => simp [hsv, he]

/-- Witness for C10: a failing rasterization and a failing output write
both surface as a `false` return, not an exception. -/
theorem enhance_pdf_traps_errors_witness :
    (enhance_pdf badEnhanceEnv).1 = false ∧
    (enhance_pdf writeFailEnhanceEnv).1 = false :=
  ⟨(enhance_pdf_traps_errors badEnhanceEnv).2.1 "bad pdf" rfl,
    (enhance_pdf_traps_errors writeFailEnhanceEnv).2.2.2 "disk full" rfl⟩

/-- C1 is violated by the source: the `repair_failed` handler appends
`file_record` and `continue`s (textract_processor.py lines 190-191), but
Python runs the loop's `finally` block (lines 240-243) on `continue`, which
appends the same record a second time.  A batch of one document whose
optimization fails therefore completes with `total_files = 1` but
`len(files) = 2`. -/
theorem repair_failure_double_appends_record :
    (pipelineMain (fun _ => repairFailEnv) ["doc1"] 0 5).map
      (fun p => (p.1.total_files, p.1.files.length)) = some (1, 2) := by
  rfl

/-- C7 is violated by the source at the zero-document edge: `main` returns
early when no PDF files are found (textract_processor.py lines 158-160),
before the log-writing code at lines 246-253, so an empty run persists no
BatchSummary at all. -/
theorem empty_run_writes_no_log :
    ∃ p, pipelineMain (fun _ => repairFailEnv) [] 0 0 = some p ∧
      p.2.count Effect.writeLog = 0 :=
  ⟨(⟨0, 0, 0, 0, 0, [], none, none⟩, []), rfl, rfl⟩

/-- Every completed per-document iteration appends at least one record, all
its records carry the document's filename, and its effect trace never
contains the batch-log write (only `main`'s epilogue writes the log). -/
theorem processDoc_records (env : DocEnv) (stem : String)
    (recs : List FileRecord) (s r t : Nat) (effs : List Effect)
    (h : processDoc env stem = some (recs, s, r, t, effs)) :
    recs ≠ [] ∧ (∀ rec ∈ recs, rec.filename = stem ++ ".pdf") ∧
    Effect.writeLog ∉ effs := by
  unfold processDoc at h
  repeat' split at h
  all_goals simp_all [List.mem_replicate]
  all_goals obtain ⟨hrecs, hs, hr, ht, heffs⟩ := h
  all_goals subst hrecs
  all_goals try subst heffs
  all_goals simp [List.mem_replicate]

/-- The document loop completes for every batch whose documents all
terminate, producing at least one record per document (carrying its
filename) and no log-write effect. -/
theorem runDocs_complete (envs : String → DocEnv) :
    ∀ stems : List String,
      (∀ stem ∈ stems, (processDoc (envs stem) stem).isSome = true) →
      ∃ recs s r t effs, runDocs envs stems = some (recs, s, r, t, effs) ∧
        (∀ stem ∈ stems, ∃ rec ∈ recs, rec.filename = stem ++ ".pdf") ∧
        Effect.writeLog ∉ effs := by
  intro stems
  induction stems with
  | nil =>
    intro _
    exact ⟨[], 0, 0, 0, [], rfl, by simp, by simp⟩
  | cons stem rest ih =>
    intro hall
    have hhead := hall stem (List.mem_cons_self stem rest)
    obtain ⟨val, hval⟩ := Option.isSome_iff_exists.mp hhead
    obtain ⟨recs, s, r, t, effs⟩ := val
    obtain ⟨hne, hnames, hnolog⟩ :=
      processDoc_records (envs stem) stem recs s r t effs hval
    obtain ⟨recs2, s2, r2, t2, effs2, hrun, hnames2, hnolog2⟩ :=
      ih (fun x hx => hall x (List.mem_cons_of_mem stem hx))
    refine ⟨recs ++ recs2, s + s2, r + r2, t + t2, effs ++ effs2, ?_, ?_, ?_⟩
    · simp [runDocs, hval, hrun]
    · intro x hx
      rcases List.mem_cons.mp hx with hx1 | hx2
      · obtain ⟨a, ha⟩ := List.exists_mem_of_ne_nil recs hne
        exact ⟨a, List.mem_append_left recs2 ha, by rw [hx1]; exact hnames a ha⟩
      · obtain ⟨a, haa, hfa⟩ := hnames2 x hx2
        exact ⟨a, List.mem_append_right recs haa, hfa⟩
    · simp only [List.mem_append]
      intro hcontra
      rcases hcontra with hc | hc
      · exact hnolog hc
      · exact hnolog2 hc

/-- C2: for every nonempty batch whose documents all terminate, no
per-document failure escapes the orchestrator: the run completes, writes
the summary log exactly once, and every document — however it fared —
appears in the summary's record list.  The witness instantiates this with
a batch in which every document fails. -/
theorem batch_run_completes_despite_failures (envs : String → DocEnv)
    (stems : List String) (startTs endTs : Nat) (hne : stems ≠ [])
    (hterm : ∀ stem ∈ stems, (processDoc (envs stem) stem).isSome = true) :
    ∃ summary effs, pipelineMain envs stems startTs endTs = some (summary, effs) ∧
      effs.count Effect.writeLog = 1 ∧
      ∀ stem ∈ stems, ∃ rec ∈ summary.files, rec.filename = stem ++ ".pdf" := by
  obtain ⟨recs, s, r, t, effs, hrun, hnames, hnolog⟩ :=
    runDocs_complete envs stems hterm
  refine ⟨⟨startTs, stems.length, s, r, t, recs, some endTs, some (endTs - startTs)⟩,
    effs ++ [Effect.writeLog], ?_, ?_, ?_⟩
  · unfold pipelineMain
    rw [if_neg (by simp [List.isEmpty_iff, hne]), hrun]
  · rw [List.count_append, List.count_eq_zero.mpr hnolog]
    simp
  · exact hnames

/-- Witness for C2: a two-document batch in which every document fails to
optimize still completes, logs once, and records both documents. -/
theorem batch_run_completes_despite_failures_witness :
    ∃ summary effs,
      pipelineMain (fun _ => repairFailEnv) ["a", "b"] 0 9 = some (summary, effs) ∧
      effs.count Effect.writeLog = 1 ∧
      ∀ stem ∈ ["a", "b"], ∃ rec ∈ summary.files, rec.filename = stem ++ ".pdf" :=
  batch_run_completes_despite_failures (fun _ => repairFailEnv) ["a", "b"] 0 9
    (by decide) (by decide)

/-- C4: when the Optimizer fails for a document, the orchestrator makes no
upload, submit, or poll call for it (the effect trace is empty), and every
appended record has status `repair_failed`, the raised error message, and
null `optimized_path` and `output_path`. -/
theorem repair_failure_makes_no_remote_calls (env : DocEnv) (stem e : String)
    (h : env.optimizeResult = Except.error e) :
    ∃ recs, processDoc env stem = some (recs, 0, 1, 0, []) ∧ recs ≠ [] ∧
      ∀ rec ∈ recs, rec.status = RecStatus.repair_failed ∧ rec.error = some e ∧
        rec.optimized_path = none ∧ rec.output_path = none := by
  refine ⟨[⟨stem ++ ".pdf", RecStatus.repair_failed, some e, none, none, some env.elapsed⟩,
    ⟨stem ++ ".pdf", RecStatus.repair_failed, some e, none, none, some env.elapsed⟩],
    ?_, by simp, ?_⟩
  · simp [processDoc, h]
  · intro rec hrec
    have hr : rec =
        ⟨stem ++ ".pdf", RecStatus.repair_failed, some e, none, none, some env.elapsed⟩ := by
      simpa using hrec
    subst hr
    exact ⟨rfl, rfl, rfl, rfl⟩

/-- Witness for C4: the concrete repair-failure environment yields the
`repair_failed` records and an empty effect trace. -/
theorem repair_failure_makes_no_remote_calls_witness :
    ∃ recs, processDoc repairFailEnv "loanB" = some (recs, 0, 1, 0, []) ∧ recs ≠ [] ∧
      ∀ rec ∈ recs, rec.status = RecStatus.repair_failed ∧
        rec.error = some "Failed to optimize PDF: corrupt page" ∧
        rec.optimized_path = none ∧ rec.output_path = none :=
  repair_failure_makes_no_remote_calls repairFailEnv "loanB"
    "Failed to optimize PDF: corrupt page" rfl

/-- C5: when the Optimizer succeeds but the upload, the job submission, or
the poll-to-completion step fails (including the job reaching the `FAILED`
terminal status), the document's single record has status `textract_failed`,
a non-null error message, `optimized_path` set to the optimized artifact's
path, and `output_path` null. -/
theorem textract_stage_failure_record (env : DocEnv) (stem : String)
    (hopt : env.optimizeResult = Except.ok ())
    (hfail : (∃ e, env.uploadResult = Except.error e) ∨
      (env.uploadResult = Except.ok () ∧ ∃ e, env.submitResult = Except.error e) ∨
      (env.uploadResult = Except.ok () ∧ (∃ j, env.submitResult = Except.ok j) ∧
        ∃ n, pollLoop env.polls = some (false, n))) :
    ∃ msg effs, processDoc env stem =
      some ([⟨stem ++ ".pdf", RecStatus.textract_failed, some msg,
        some ("ocr_optimized_pdfs/" ++ stem ++ "_ocr_fixed.pdf"), none,
        some env.elapsed⟩], 0, 0, 1, effs) := by
  rcases hfail with ⟨e, hu⟩ | ⟨hu, e, hs⟩ | ⟨hu, ⟨j, hs⟩, ⟨n, hp⟩⟩
  · exact ⟨e, [Effect.upload ("uploads/" ++ stem ++ "_ocr_fixed.pdf")],
      by simp [processDoc, hopt, hu]⟩
  · exact ⟨e, [Effect.upload ("uploads/" ++ stem ++ "_ocr_fixed.pdf"),
      Effect.submitJob ("uploads/" ++ stem ++ "_ocr_fixed.pdf")],
      by simp [processDoc, hopt, hu, hs]⟩
  · exact ⟨"Textract job failed",
      [Effect.upload ("uploads/" ++ stem ++ "_ocr_fixed.pdf"),
        Effect.submitJob ("uploads/" ++ stem ++ "_ocr_fixed.pdf")] ++
        List.replicate n (Effect.poll j),
      by simp [processDoc, hopt, hu, hs, hp]⟩

/-- Witness for C5: a document whose upload fails after successful
optimization ends `textract_failed` with its optimized path recorded. -/
theorem textract_stage_failure_record_witness :
    ∃ msg effs, processDoc uploadFailEnv "loanC" =
      some ([⟨"loanC" ++ ".pdf", RecStatus.textract_failed, some msg,
        some ("ocr_optimized_pdfs/" ++ "loanC" ++ "_ocr_fixed.pdf"), none,
        some uploadFailEnv.elapsed⟩], 0, 0, 1, effs) :=
  textract_stage_failure_record uploadFailEnv "loanC" rfl
    (Or.inl ⟨"S3 access denied", rfl⟩)

/-- C7 amended: for every run over at least one document whose documents
all terminate, the BatchSummary — end timestamp and total elapsed time
stamped — is persisted exactly once at run end; a zero-document run
returns early and persists nothing. -/
theorem log_written_once_for_nonempty_run (envs : String → DocEnv)
    (stems : List String) (startTs endTs : Nat) (hne : stems ≠ [])
    (hterm : ∀ stem ∈ stems, (processDoc (envs stem) stem).isSome = true) :
    ∃ summary effs, pipelineMain envs stems startTs endTs = some (summary, effs) ∧
      effs.count Effect.writeLog = 1 ∧
      summary.pipeline_end = some endTs ∧
      summary.total_processing_time = some (endTs - startTs) := by
  obtain ⟨recs, s, r, t, effs, hrun, _, hnolog⟩ := runDocs_complete envs stems hterm
  refine ⟨⟨startTs, stems.length, s, r, t, recs, some endTs, some (endTs - startTs)⟩,
    effs ++ [Effect.writeLog], ?_, ?_, rfl, rfl⟩
  · unfold pipelineMain
    rw [if_neg (by simp [List.isEmpty_iff, hne]), hrun]
  · rw [List.count_append, List.count_eq_zero.mpr hnolog]
    simp

/-- Witness for the amended C7: a one-document run (whose upload fails)
still persists the stamped summary exactly once. -/
theorem log_written_once_for_nonempty_run_witness :
    ∃ summary effs,
      pipelineMain (fun _ => uploadFailEnv) ["c"] 3 10 = some (summary, effs) ∧
      effs.count Effect.writeLog = 1 ∧
      summary.pipeline_end = some 10 ∧
      summary.total_processing_time = some (10 - 3) :=
  log_written_once_for_nonempty_run (fun _ => uploadFailEnv) ["c"] 3 10
    (by decide) (by decide)
